import Mathlib

/-
Shallow embedding of the compute-unit estimation/optimization core of the
Solana Rust client extension (src/src/lib.rs).

Modelling conventions:
  * Machine integers are `Nat` with explicit bounds (`U32_MOD`, reduction
    `% 256` where the source casts `as u8`).
  * External collaborators (the RPC node, the account storage, the SDK ledger
    runtime) are fields of environment structures (`RpcClient`,
    `LedgerRuntime`): each estimation call reads them, exactly as the Rust
    methods call `self.get_account`, `self.get_latest_blockhash`,
    `self.simulate_transaction_with_config`,
    `SanitizedTransaction::try_from_legacy_transaction` and
    `MessageProcessor::process_message`.
  * Fallible Rust code returning `Result<_, Box<dyn Error>>` becomes
    `Except SolanaClientExtError _`; code that can panic (`unwrap`) returns
    `Outcome`, whose `panic` constructor records that the call diverges
    instead of returning.
  * In-place mutation of a `&mut Message` / `&mut Transaction` becomes
    explicit state passing: the embedded function returns the result paired
    with the post-state.
-/

/-- Account identifier (32-byte public key in the source); only equality on
keys is ever used by the embedded code, so an abstract `Nat` represents it. -/
abbrev Pubkey := Nat

/-- Recent blockhash value; opaque to the embedded code. -/
abbrev Blockhash := Nat

/-- One signature; opaque to the embedded code. -/
abbrev Signature := Nat

/-- Fetched account snapshot (`AccountSharedData`); the embedded code only
moves these values around, so they are abstract. -/
abbrev AccountSharedData := Nat

/-- Models `solana_sdk::compute_budget::id()`: the fixed, well-known
budget-program key. Only its equality with other keys matters; the concrete
value is an arbitrary distinguished constant. -/
def compute_budget_id : Pubkey := 999000

/-- `2^32`, the number of values of a `u32`. -/
def U32_MOD : Nat := 4294967296

/-- `u32::MAX`. -/
def U32_MAX : Nat := 4294967295

/-- `u32::saturating_add` on in-range operands. -/
def saturating_add_u32 (a b : Nat) : Nat := min (a + b) U32_MAX

/-- Little-endian byte serialization of a `u32` (borsh encodes the payload of
`ComputeBudgetInstruction::SetComputeUnitLimit` this way). -/
def u32_le_bytes (n : Nat) : List Nat :=
  [n % 256, n / 256 % 256, n / 65536 % 256, n / 16777216 % 256]

/-- Compiled instruction of a legacy `Message`: indices into the message's
`account_keys` (each a `u8` in the source) plus opaque instruction data. -/
structure CompiledInstruction where
  program_id_index : Nat
  accounts : List Nat
  data : List Nat
deriving Repr, DecidableEq

/-- Legacy message header (`solana_sdk::message::MessageHeader`). The embedded
code never reads the two readonly counts; `num_required_signatures` sizes the
signature vector of `Transaction::new_unsigned`. -/
structure MessageHeader where
  num_required_signatures : Nat
  num_readonly_signed_accounts : Nat
  num_readonly_unsigned_accounts : Nat
deriving Repr, DecidableEq

/-- Legacy `solana_sdk::message::Message`: account-reference sequence plus
compiled instructions referencing accounts by index. -/
structure Message where
  header : MessageHeader
  account_keys : List Pubkey
  recent_blockhash : Blockhash
  instructions : List CompiledInstruction
deriving Repr, DecidableEq

/-- Uncompiled `solana_sdk::instruction::Instruction`: program id, the keys of
its account metas (the signer/writable flags are irrelevant to compilation by
key position and are omitted), and data bytes. -/
structure Instruction where
  program_id : Pubkey
  accounts : List Pubkey
  data : List Nat
deriving Repr, DecidableEq

/-- Models the SDK free function `position(keys, key)` used by message
compilation: index of the first occurrence of `key`, cast `as u8` (hence
`% 256`). The source unwraps the search; every call site below looks up a key
that is present, where `List.indexOf` agrees with the source. -/
def key_position (keys : List Pubkey) (key : Pubkey) : Nat :=
  (List.indexOf key keys) % 256

/-- Models `Message::compile_instruction`: resolve the program id and each
account meta to its (first) position in `account_keys`, copy the data. -/
def Message.compile_instruction (m : Message) (ix : Instruction) : CompiledInstruction :=
  { program_id_index := key_position m.account_keys ix.program_id
    accounts := ix.accounts.map (key_position m.account_keys)
    data := ix.data }

/-- Models `ComputeBudgetInstruction::set_compute_unit_limit(units)`:
an instruction on the budget program with no account metas whose data is the
borsh serialization of `SetComputeUnitLimit(units)` — variant tag 2 followed
by the little-endian `u32`. -/
def set_compute_unit_limit (units : Nat) : Instruction :=
  { program_id := compute_budget_id
    accounts := []
    data := 2 :: u32_le_bytes units }

/-- Decoder for the limit carried by a compiled set-compute-unit-limit
instruction: parses the borsh variant tag 2 plus little-endian `u32`. -/
def set_compute_unit_limit_arg (ix : CompiledInstruction) : Option Nat :=
  match ix.data with
  | [tag, b0, b1, b2, b3] =>
    if tag = 2 then some (b0 + 256 * b1 + 65536 * b2 + 16777216 * b3) else none
  | _ => none

/-- Legacy `solana_sdk::transaction::Transaction`: signatures plus message. -/
structure Transaction where
  signatures : List Signature
  message : Message
deriving Repr, DecidableEq

/-- Models `Transaction::new_unsigned`: default signatures, one per required
signer. -/
def Transaction.new_unsigned (m : Message) : Transaction :=
  { signatures := List.replicate m.header.num_required_signatures 0
    message := m }

/-- Caller-supplied signing capability (the `Signers` argument of
`Transaction::sign`): produces the signature vector for a message. The source
treats it as an opaque collaborator. -/
abbrev SignFn := Message → List Signature

/-- Models `Transaction::sign(signers, blockhash)`: store the fresh blockhash
in the message and recompute the signatures over the updated message. -/
def Transaction.sign (tx : Transaction) (signers : SignFn) (bh : Blockhash) : Transaction :=
  let msg := { tx.message with recent_blockhash := bh }
  { message := msg, signatures := signers msg }

/-- Error value crossing the `Box<dyn Error>` boundary of the crate's public
signatures. `ComputeUnitsError` and `RpcError` are the crate's own
`SolanaClientExtError` variants constructed in src/src/lib.rs;
`TryFromIntError` models `std::num::TryFromIntError` propagated by the `?` on
`u32::try_from`; `ClientError` models any transport error produced by the RPC
collaborator itself. -/
inductive SolanaClientExtError where
  | ComputeUnitsError (msg : String)
  | RpcError (msg : String)
  | TryFromIntError
  | ClientError (msg : String)
deriving Repr, DecidableEq

/-- Models `u32::try_from` on a `u64` value: identity when the value fits in
32 bits, `TryFromIntError` otherwise. -/
def u32_try_from (n : Nat) : Except SolanaClientExtError Nat :=
  if n < U32_MOD then .ok n else .error .TryFromIntError

/-- Result of a possibly panicking Rust call: a returned value, a returned
error, or a panic (`unwrap` on a failed `Result`/`Option`). -/
inductive Outcome (ε α : Type) where
  | ok (a : α)
  | error (e : ε)
  | panic (msg : String)
deriving Repr, DecidableEq

/-- Simulation response payload (`RpcSimulateTransactionResult` restricted to
the one field the embedded code reads). -/
structure RpcSimulateTransactionResult where
  units_consumed : Option Nat
deriving Repr, DecidableEq

/-- Simulation request configuration; the embedded code only ever sets
`sig_verify`. -/
structure RpcSimulateTransactionConfig where
  sig_verify : Bool
deriving Repr, DecidableEq

/-- External RPC collaborator: the remote node reached through
`solana_client::rpc_client::RpcClient`, plus the account storage used by the
local path (`get_account`). Each field is one blocking round trip. -/
structure RpcClient where
  get_latest_blockhash : Except SolanaClientExtError Blockhash
  simulate_transaction_with_config :
    Transaction → RpcSimulateTransactionConfig →
      Except SolanaClientExtError RpcSimulateTransactionResult
  get_account : Pubkey → Option AccountSharedData

/-- External SDK ledger-runtime collaborator used by the local path:
`try_from_legacy_transaction` is the sanitization step
(`none` models a sanitization error), and `process_message` is
`MessageProcessor::process_message` run against an ephemeral context seeded
with exactly the fetched accounts — it yields the execution result and the
final value of the `used_cu` counter. -/
structure LedgerRuntime where
  try_from_legacy_transaction : Transaction → Option Message
  process_message :
    Message → List AccountSharedData → Except String Unit × Nat

/-- Models the account-fetch loop of `estimate_compute_units_unsigned_tx`:
fetch every referenced key in order; the source calls
`self.get_account(&key).unwrap()`, so the whole loop diverges (here: `none`)
as soon as one fetch fails. -/
def fetch_all_accounts (get : Pubkey → Option AccountSharedData) :
    List Pubkey → Option (List AccountSharedData)
  | [] => some []
  | k :: ks =>
    match get k with
    | none => none
    | some a => (fetch_all_accounts get ks).map (a :: ·)

/-- Panic payload of the `unwrap` on a failed account fetch. -/
def account_fetch_panic_message : String := "account fetch unwrap failed"

/-- Panic payload of the `unwrap` on a failed sanitization. -/
def sanitize_panic_message : String := "sanitization unwrap failed"

/-- Models `RpcClientExt::estimate_compute_units_unsigned_tx` exactly as
written: compute the sanitization result, fetch every referenced account
(unwrapping each, so a missing account panics before the sanitization result
is ever inspected), unwrap the sanitization, run the message processor, and
return `Ok(used_cu)` — the execution result `result_msg` is bound and then
discarded. The `_signers` parameter is never used. -/
def estimate_compute_units_unsigned_tx {σ : Type} (rt : LedgerRuntime)
    (client : RpcClient) (transaction : Transaction) (_signers : σ) :
    Outcome SolanaClientExtError Nat :=
  let sanitized := rt.try_from_legacy_transaction transaction
  match fetch_all_accounts client.get_account transaction.message.account_keys with
  | none => .panic account_fetch_panic_message
  | some accounts_data =>
    match sanitized with
    | none => .panic sanitize_panic_message
    | some sanitized_msg =>
      let processed := rt.process_message sanitized_msg accounts_data
      .ok processed.2

/-- Models `RpcClientExt::estimate_compute_units_msg`: build an unsigned
transaction from a clone of the message, sign it with a freshly fetched
blockhash, simulate with `sig_verify: true`, then read `units_consumed` —
`None` raises `ComputeUnitsError`, zero raises
`RpcError("Transaction simulation failed.")`. -/
def estimate_compute_units_msg (client : RpcClient) (message : Message)
    (signers : SignFn) : Except SolanaClientExtError Nat :=
  match client.get_latest_blockhash with
  | .error e => .error e
  | .ok bh =>
    match client.simulate_transaction_with_config
        ((Transaction.new_unsigned message).sign signers bh) { sig_verify := true } with
    | .error e => .error e
    | .ok result =>
      match result.units_consumed with
      | none =>
        .error (.ComputeUnitsError "Missing Compute Units from transaction simulation.")
      | some consumed_cu =>
        if consumed_cu = 0 then .error (.RpcError "Transaction simulation failed.")
        else .ok consumed_cu

/-- Models `RpcClientExt::optimize_compute_units_msg`: estimate remotely,
truncate to `u32` via `try_from`, build a set-compute-unit-limit instruction
for `optimal_cu.saturating_add(150)`, push the budget-program id onto
`account_keys`, compile the instruction against the post-push keys, insert it
at instruction index 0, and return `Ok(optimal_cu)` (the unpadded estimate).
The pair carries the result together with the post-state of the `&mut`
message; every early `?` return leaves the message untouched. -/
def optimize_compute_units_msg (client : RpcClient) (message : Message)
    (signers : SignFn) : Except SolanaClientExtError Nat × Message :=
  match estimate_compute_units_msg client message signers with
  | .error e => (.error e, message)
  | .ok cu =>
    match u32_try_from cu with
    | .error e => (.error e, message)
    | .ok optimal_cu =>
      let optimize_ix := set_compute_unit_limit (saturating_add_u32 optimal_cu 150)
      let message1 :=
        { message with account_keys := message.account_keys ++ [compute_budget_id] }
      let compiled_ix := message1.compile_instruction optimize_ix
      let message2 := { message1 with instructions := compiled_ix :: message1.instructions }
      (.ok optimal_cu, message2)

/-- Models `RpcClientExt::optimize_compute_units_unsigned_tx`: estimate
locally, truncate to `u32` via `try_from`, build a set-compute-unit-limit
instruction for
`optimal_cu.saturating_add(optimal_cu.saturating_div(100) * 20)` (for an
unsigned value `saturating_div` is plain division; the plain `* 20` wraps at
`2^32`, though it can in fact never overflow), then perform the same
push/compile/insert mutation on the transaction's message and return
`Ok(optimal_cu)`. -/
def optimize_compute_units_unsigned_tx {σ : Type} (rt : LedgerRuntime)
    (client : RpcClient) (transaction : Transaction) (signers : σ) :
    Outcome SolanaClientExtError Nat × Transaction :=
  match estimate_compute_units_unsigned_tx rt client transaction signers with
  | .panic m => (.panic m, transaction)
  | .error e => (.error e, transaction)
  | .ok cu =>
    match u32_try_from cu with
    | .error e => (.error e, transaction)
    | .ok optimal_cu =>
      let margin := optimal_cu / 100 * 20 % U32_MOD
      let optimize_ix := set_compute_unit_limit (saturating_add_u32 optimal_cu margin)
      let message1 :=
        { transaction.message with
            account_keys := transaction.message.account_keys ++ [compute_budget_id] }
      let compiled_ix := message1.compile_instruction optimize_ix
      let message2 := { message1 with instructions := compiled_ix :: message1.instructions }
      (.ok optimal_cu, { transaction with message := message2 })

/-- The structural invariant of the data model: every index an instruction
holds is below the given length of the account-reference sequence. -/
def CompiledInstruction.indices_lt (ix : CompiledInstruction) (n : Nat) : Prop :=
  ix.program_id_index < n ∧ ∀ i ∈ ix.accounts, i < n

/-- Concrete two-account message with one transfer-like instruction; used by
the concrete witnesses and counterexamples below. -/
def msgW : Message :=
  { header := ⟨1, 0, 1⟩
    account_keys := [1, 2]
    recent_blockhash := 0
    instructions := [⟨1, [0], [2, 0, 0, 0]⟩] }

/-- Concrete signing capability for the witnesses. -/
def signW : SignFn := fun _ => [11]

/-- Concrete RPC collaborator whose simulation reports zero consumed units. -/
def clientZero : RpcClient :=
  { get_latest_blockhash := .ok 7
    simulate_transaction_with_config := fun _ _ => .ok { units_consumed := some 0 }
    get_account := fun _ => some 0 }

/-- Concrete RPC collaborator whose simulation omits the consumed-units
field. -/
def clientNone : RpcClient :=
  { get_latest_blockhash := .ok 7
    simulate_transaction_with_config := fun _ _ => .ok { units_consumed := none }
    get_account := fun _ => some 0 }

/-- Concrete RPC collaborator whose simulation reports 1200 consumed units. -/
def client1200 : RpcClient :=
  { get_latest_blockhash := .ok 7
    simulate_transaction_with_config := fun _ _ => .ok { units_consumed := some 1200 }
    get_account := fun _ => some 0 }

/-- Concrete RPC collaborator whose simulation reports 33 consumed units. -/
def client33 : RpcClient :=
  { get_latest_blockhash := .ok 7
    simulate_transaction_with_config := fun _ _ => .ok { units_consumed := some 33 }
    get_account := fun _ => some 0 }

/-- Concrete RPC collaborator that resolves every account and whose simulation
reports one consumed unit. -/
def clientAccountsOk : RpcClient :=
  { get_latest_blockhash := .ok 7
    simulate_transaction_with_config := fun _ _ => .ok { units_consumed := some 1 }
    get_account := fun _ => some 0 }

/-- Concrete RPC collaborator whose account storage resolves no account at
all. -/
def clientNoAccounts : RpcClient :=
  { get_latest_blockhash := .ok 7
    simulate_transaction_with_config := fun _ _ => .ok { units_consumed := some 1 }
    get_account := fun _ => none }

/-- Concrete ledger runtime on which sanitization and execution succeed and
the replay consumes 42 units. -/
def rtOk : LedgerRuntime :=
  { try_from_legacy_transaction := fun tx => some tx.message
    process_message := fun _ _ => (.ok (), 42) }

/-- Concrete ledger runtime on which sanitization succeeds but program
execution fails, having consumed 42 units before the fault. -/
def rtExecFail : LedgerRuntime :=
  { try_from_legacy_transaction := fun tx => some tx.message
    process_message := fun _ _ => (.error "InstructionError", 42) }

/-- Concrete ledger runtime whose replay succeeds and consumes
`u32::MAX - 10` units. -/
def rtBigEstimate : LedgerRuntime :=
  { try_from_legacy_transaction := fun tx => some tx.message
    process_message := fun _ _ => (.ok (), 4294967285) }

/-- Concrete ledger runtime whose replay succeeds and consumes `2^32` units,
one more than `u32::MAX`. -/
def rtHugeEstimate : LedgerRuntime :=
  { try_from_legacy_transaction := fun tx => some tx.message
    process_message := fun _ _ => (.ok (), 4294967296) }

/-- Concrete unsigned transaction over `msgW`. -/
def txW : Transaction := Transaction.new_unsigned msgW

/-- Concrete message whose account-reference sequence already contains the
budget-program identifier (at index 0) before any optimization. -/
def msgBudgetFirst : Message :=
  { header := ⟨1, 0, 1⟩
    account_keys := [compute_budget_id, 5]
    recent_blockhash := 0
    instructions := [⟨1, [0], [9]⟩] }

/-- C6: whenever the remote simulation succeeds but reports exactly zero
consumed units, `estimate_compute_units_msg` fails with the
simulation-failed error (realized in the code as the `RpcError` variant with
the message "Transaction simulation failed."), and zero is never returned as
a valid estimate on any path. -/
theorem C6_zero_units_rejected :
    (∀ (client : RpcClient) (message : Message) (signers : SignFn)
        (bh : Blockhash) (resp : RpcSimulateTransactionResult),
      client.get_latest_blockhash = .ok bh →
      client.simulate_transaction_with_config
          ((Transaction.new_unsigned message).sign signers bh) { sig_verify := true } =
        .ok resp →
      resp.units_consumed = some 0 →
      estimate_compute_units_msg client message signers =
        .error (.RpcError "Transaction simulation failed.")) ∧
    (∀ (client : RpcClient) (message : Message) (signers : SignFn),
      estimate_compute_units_msg client message signers ≠ .ok 0) := by
  constructor
  · intro client message signers bh resp h1 h2 h3
    simp [estimate_compute_units_msg, h1, h2, h3]
  · intro client message signers h
    unfold estimate_compute_units_msg at h
    split at h
    · exact Except.noConfusion h
    · split at h
      · exact Except.noConfusion h
      · split at h
        · exact Except.noConfusion h
        · split at h
          · exact Except.noConfusion h
          · rename_i hne
            exact hne (Except.ok.inj h)

/-- Witness for C6 at the concrete zero-units collaborator. -/
theorem C6_witness :
    estimate_compute_units_msg clientZero msgW signW =
      .error (.RpcError "Transaction simulation failed.") ∧
    estimate_compute_units_msg clientZero msgW signW ≠ .ok 0 :=
  ⟨C6_zero_units_rejected.1 clientZero msgW signW 7 ⟨some 0⟩ rfl rfl rfl,
   C6_zero_units_rejected.2 clientZero msgW signW⟩

/-- C7: whenever the remote simulation succeeds but its response omits the
consumed-units field, `estimate_compute_units_msg` fails with
`ComputeUnitsError`; no default value is substituted. -/
theorem C7_missing_units_rejected (client : RpcClient) (message : Message)
    (signers : SignFn) (bh : Blockhash) (resp : RpcSimulateTransactionResult)
    (h1 : client.get_latest_blockhash = .ok bh)
    (h2 : client.simulate_transaction_with_config
        ((Transaction.new_unsigned message).sign signers bh) { sig_verify := true } =
      .ok resp)
    (h3 : resp.units_consumed = none) :
    estimate_compute_units_msg client message signers =
      .error (.ComputeUnitsError "Missing Compute Units from transaction simulation.") := by
  simp [estimate_compute_units_msg, h1, h2, h3]

/-- Witness for C7 at the concrete missing-field collaborator. -/
theorem C7_witness :
    estimate_compute_units_msg clientNone msgW signW =
      .error (.ComputeUnitsError "Missing Compute Units from transaction simulation.") :=
  C7_missing_units_rejected clientNone msgW signW 7 ⟨none⟩ rfl rfl rfl

/-- C8: whenever the remote estimation step fails, `optimize_compute_units_msg`
returns that error and the message post-state equals the input message:
no account key and no instruction was touched. -/
theorem C8_error_leaves_message_unchanged (client : RpcClient) (message : Message)
    (signers : SignFn) (e : SolanaClientExtError)
    (h : estimate_compute_units_msg client message signers = .error e) :
    optimize_compute_units_msg client message signers = (.error e, message) := by
  unfold optimize_compute_units_msg
  rw [h]

/-- Witness for C8: the zero-consumed-units collaborator of the spec scenario
makes the call fail with the simulation-failed error and leaves the concrete
message exactly unchanged. -/
theorem C8_witness :
    optimize_compute_units_msg clientZero msgW signW =
      (.error (.RpcError "Transaction simulation failed."), msgW) :=
  C8_error_leaves_message_unchanged clientZero msgW signW _ rfl

/-- C9: whenever the remote estimate is 1200 units, the msg entry point (fixed
+150 margin) inserts at instruction index 0 an instruction whose decoded
set-compute-unit-limit argument is 1350, keeps the remaining instructions,
and grows the account-reference sequence by exactly one entry. -/
theorem C9_fixed_margin_scenario (client : RpcClient) (message : Message)
    (signers : SignFn)
    (h : estimate_compute_units_msg client message signers = .ok 1200) :
    ((optimize_compute_units_msg client message signers).2.account_keys.length =
        message.account_keys.length + 1) ∧
    ((optimize_compute_units_msg client message signers).2.instructions.head?.bind
        set_compute_unit_limit_arg = some 1350) ∧
    ((optimize_compute_units_msg client message signers).2.instructions.tail =
        message.instructions) := by
  unfold optimize_compute_units_msg
  rw [h]
  simp [u32_try_from, U32_MOD, saturating_add_u32, U32_MAX, set_compute_unit_limit,
    set_compute_unit_limit_arg, u32_le_bytes, Message.compile_instruction]

/-- Witness for C9 at the concrete 1200-unit collaborator. -/
theorem C9_witness :
    ((optimize_compute_units_msg client1200 msgW signW).2.account_keys.length =
        msgW.account_keys.length + 1) ∧
    ((optimize_compute_units_msg client1200 msgW signW).2.instructions.head?.bind
        set_compute_unit_limit_arg = some 1350) ∧
    ((optimize_compute_units_msg client1200 msgW signW).2.instructions.tail =
        msgW.instructions) :=
  C9_fixed_margin_scenario client1200 msgW signW rfl

/-- C10: the local estimation path never reads its signers argument: the same
ledger runtime, client, and transaction give the same outcome for any two
signer values, even of different types. -/
theorem C10_signers_ignored {σ τ : Type} (rt : LedgerRuntime) (client : RpcClient)
    (transaction : Transaction) (s1 : σ) (s2 : τ) :
    estimate_compute_units_unsigned_tx rt client transaction s1 =
      estimate_compute_units_unsigned_tx rt client transaction s2 := rfl

/-- Helper: the account-fetch loop fails exactly when some referenced key is
unresolvable. -/
theorem fetch_all_accounts_eq_none (get : Pubkey → Option AccountSharedData) :
    ∀ ks : List Pubkey,
      fetch_all_accounts get ks = none ↔ ∃ k ∈ ks, get k = none := by
  intro ks
  induction ks with
  | nil => simp [fetch_all_accounts]
  | cons k ks ih =>
    cases hk : get k with
    | none =>
      simp [fetch_all_accounts, hk]
    | some a =>
      simp only [fetch_all_accounts, hk, Option.map_eq_none', ih, List.mem_cons]
      constructor
      · rintro ⟨x, hx, hnone⟩
        exact ⟨x, Or.inr hx, hnone⟩
      · rintro ⟨x, hx | hx, hnone⟩
        · subst hx
          rw [hnone] at hk
          exact Option.noConfusion hk
        · exact ⟨x, hx, hnone⟩

/-- C4 counterexample: a concrete transaction referencing accounts that the
storage cannot resolve, on which `estimate_compute_units_unsigned_tx` panics
(the fetch result is unwrapped) instead of returning an account-fetch error
to the caller, falsifying the claim as stated. -/
theorem C4_counterexample :
    estimate_compute_units_unsigned_tx rtOk clientNoAccounts txW ([] : List Nat) =
      .panic account_fetch_panic_message := rfl

/-- C4 amended: whenever some referenced account is unresolvable, the local
estimation panics on the unwrapped fetch (before sanitization is even
inspected); in particular it never proceeds treating the account as
empty/new and never returns a consumed-units value. -/
theorem C4_amended_panics_on_fetch_failure {σ : Type} (rt : LedgerRuntime)
    (client : RpcClient) (transaction : Transaction) (signers : σ)
    (h : ∃ k ∈ transaction.message.account_keys, client.get_account k = none) :
    estimate_compute_units_unsigned_tx rt client transaction signers =
      .panic account_fetch_panic_message := by
  unfold estimate_compute_units_unsigned_tx
  rw [(fetch_all_accounts_eq_none client.get_account
    transaction.message.account_keys).mpr h]

/-- Witness for the amended C4 at a concrete unresolvable-account input. -/
theorem C4_amended_witness :
    estimate_compute_units_unsigned_tx rtOk clientNoAccounts txW (0 : Nat) =
      .panic account_fetch_panic_message :=
  C4_amended_panics_on_fetch_failure rtOk clientNoAccounts txW 0
    ⟨1, by decide, rfl⟩

/-- C5 counterexample: a concrete input on which the local replay runs and
program execution fails, yet `estimate_compute_units_unsigned_tx` returns
`Ok 42` — the consumed-units counter — rather than any execution error,
falsifying the claim as stated. -/
theorem C5_counterexample :
    (rtExecFail.process_message msgW [0, 0]).1 = .error "InstructionError" ∧
    estimate_compute_units_unsigned_tx rtExecFail clientAccountsOk txW
        ([] : List Nat) = .ok 42 :=
  ⟨rfl, rfl⟩

/-- C5 amended: the execution result of the local replay is discarded:
whenever sanitization and every account fetch succeed, the call returns `Ok`
with the consumed-units counter, even when `process_message` reports an
execution failure; no execution error is ever surfaced. -/
theorem C5_amended_execution_result_ignored {σ : Type} (rt : LedgerRuntime)
    (client : RpcClient) (transaction : Transaction) (signers : σ)
    (sanitized_msg : Message) (accounts_data : List AccountSharedData)
    (h1 : rt.try_from_legacy_transaction transaction = some sanitized_msg)
    (h2 : fetch_all_accounts client.get_account
        transaction.message.account_keys = some accounts_data) :
    estimate_compute_units_unsigned_tx rt client transaction signers =
      .ok (rt.process_message sanitized_msg accounts_data).2 := by
  unfold estimate_compute_units_unsigned_tx
  rw [h2, h1]

/-- Witness for the amended C5 at a concrete failing-execution input. -/
theorem C5_amended_witness :
    estimate_compute_units_unsigned_tx rtExecFail clientAccountsOk txW
        (0 : Nat) = .ok (rtExecFail.process_message msgW [0, 0]).2 :=
  C5_amended_execution_result_ignored rtExecFail clientAccountsOk txW 0
    msgW [0, 0] rfl rfl

/-- Helper: a saturating u32 addition always stays in 32-bit range. -/
theorem saturating_add_u32_lt (a b : Nat) : saturating_add_u32 a b < U32_MOD := by
  have h : saturating_add_u32 a b ≤ U32_MAX := min_le_right _ _
  unfold U32_MAX at h
  unfold U32_MOD
  omega

/-- Helper: a saturating u32 addition never falls below its first operand
when that operand is already a u32 value. -/
theorem le_saturating_add_u32 (a b : Nat) (ha : a < U32_MOD) :
    a ≤ saturating_add_u32 a b := by
  have h1 : a ≤ a + b := Nat.le_add_right a b
  have h2 : a ≤ U32_MAX := by
    unfold U32_MOD at ha
    unfold U32_MAX
    omega
  exact le_min h1 h2

/-- Helper: compiling a set-compute-unit-limit instruction and decoding its
data round-trips the in-range limit value. -/
theorem set_compute_unit_limit_arg_compile (m : Message) (u : Nat)
    (hu : u < U32_MOD) :
    set_compute_unit_limit_arg
      (m.compile_instruction (set_compute_unit_limit u)) = some u := by
  unfold U32_MOD at hu
  simp only [set_compute_unit_limit_arg, Message.compile_instruction,
    set_compute_unit_limit, u32_le_bytes]
  norm_num
  omega

/-- Helper: unfolding of the msg-path optimizer on an in-range estimate. -/
theorem optimize_msg_ok (client : RpcClient) (message : Message)
    (signers : SignFn) (e : Nat)
    (h : estimate_compute_units_msg client message signers = .ok e)
    (hlt : e < U32_MOD) :
    optimize_compute_units_msg client message signers =
      (.ok e,
        { message with
            account_keys := message.account_keys ++ [compute_budget_id]
            instructions :=
              Message.compile_instruction
                  { message with
                      account_keys := message.account_keys ++ [compute_budget_id] }
                  (set_compute_unit_limit (saturating_add_u32 e 150)) ::
                message.instructions }) := by
  unfold optimize_compute_units_msg
  rw [h]
  simp only []
  unfold u32_try_from
  rw [if_pos hlt]

/-- Helper: the msg-path optimizer propagates the truncation error of an
out-of-range estimate, leaving the message unchanged. -/
theorem optimize_msg_overflow (client : RpcClient) (message : Message)
    (signers : SignFn) (e : Nat)
    (h : estimate_compute_units_msg client message signers = .ok e)
    (hge : U32_MOD ≤ e) :
    optimize_compute_units_msg client message signers =
      (.error .TryFromIntError, message) := by
  unfold optimize_compute_units_msg
  rw [h]
  simp only []
  unfold u32_try_from
  rw [if_neg (by omega)]

/-- Helper: unfolding of the unsigned-tx-path optimizer on an in-range
estimate. -/
theorem optimize_tx_ok {σ : Type} (rt : LedgerRuntime) (client : RpcClient)
    (tx : Transaction) (signers : σ) (e : Nat)
    (h : estimate_compute_units_unsigned_tx rt client tx signers = .ok e)
    (hlt : e < U32_MOD) :
    optimize_compute_units_unsigned_tx rt client tx signers =
      (.ok e,
        { tx with
            message :=
              { tx.message with
                  account_keys := tx.message.account_keys ++ [compute_budget_id]
                  instructions :=
                    Message.compile_instruction
                        { tx.message with
                            account_keys :=
                              tx.message.account_keys ++ [compute_budget_id] }
                        (set_compute_unit_limit
                          (saturating_add_u32 e (e / 100 * 20 % U32_MOD))) ::
                      tx.message.instructions } }) := by
  unfold optimize_compute_units_unsigned_tx
  rw [h]
  simp only []
  unfold u32_try_from
  rw [if_pos hlt]

/-- Helper: the unsigned-tx-path optimizer propagates the truncation error of
an out-of-range estimate, leaving the transaction unchanged. -/
theorem optimize_tx_overflow {σ : Type} (rt : LedgerRuntime) (client : RpcClient)
    (tx : Transaction) (signers : σ) (e : Nat)
    (h : estimate_compute_units_unsigned_tx rt client tx signers = .ok e)
    (hge : U32_MOD ≤ e) :
    optimize_compute_units_unsigned_tx rt client tx signers =
      (.error .TryFromIntError, tx) := by
  unfold optimize_compute_units_unsigned_tx
  rw [h]
  simp only []
  unfold u32_try_from
  rw [if_neg (by omega)]

/-- C1 counterexample: a concrete run whose local estimate is
`u32::MAX - 10 = 4294967285`, so the padded value
`4294967285 + 4294967285 / 100 * 20` does not fit in 32 bits; the claim
demands an overflow failure, but the call succeeds with `Ok 4294967285` and
the inserted instruction carries the saturated limit `u32::MAX`. -/
theorem C1_counterexample :
    ((optimize_compute_units_unsigned_tx rtBigEstimate clientAccountsOk txW
        ([] : List Nat)).1 = .ok 4294967285) ∧
    (((optimize_compute_units_unsigned_tx rtBigEstimate clientAccountsOk txW
        ([] : List Nat)).2.message.instructions.head?.bind
          set_compute_unit_limit_arg) = some 4294967295) :=
  ⟨rfl, rfl⟩

/-- C1 amended: the optimize operations fail with the overflow error exactly
when the 64-bit estimate itself exceeds `u32::MAX` (saturation is applied to
the margin addition, truncation to the raw estimate); when the estimate fits
in 32 bits the call succeeds and the limit carried by the inserted
instruction is the saturated padded value — at least the estimate and within
32 bits, so no wraparound ever produces a limit smaller than the estimate. -/
theorem C1_amended_overflow_behavior :
    (∀ {σ : Type} (rt : LedgerRuntime) (client : RpcClient) (tx : Transaction)
        (signers : σ) (e : Nat),
      estimate_compute_units_unsigned_tx rt client tx signers = .ok e →
      (U32_MOD ≤ e →
        (optimize_compute_units_unsigned_tx rt client tx signers).1 =
          .error .TryFromIntError) ∧
      (e < U32_MOD →
        ∃ L,
          (optimize_compute_units_unsigned_tx rt client tx signers).1 = .ok e ∧
          ((optimize_compute_units_unsigned_tx rt client tx
              signers).2.message.instructions.head?.bind
            set_compute_unit_limit_arg) = some L ∧
          e ≤ L ∧ L < U32_MOD)) ∧
    (∀ (client : RpcClient) (message : Message) (signers : SignFn) (e : Nat),
      estimate_compute_units_msg client message signers = .ok e →
      (U32_MOD ≤ e →
        (optimize_compute_units_msg client message signers).1 =
          .error .TryFromIntError) ∧
      (e < U32_MOD →
        ∃ L,
          (optimize_compute_units_msg client message signers).1 = .ok e ∧
          ((optimize_compute_units_msg client message
              signers).2.instructions.head?.bind set_compute_unit_limit_arg) =
            some L ∧
          e ≤ L ∧ L < U32_MOD)) := by
  constructor
  · intro σ rt client tx signers e h
    constructor
    · intro hge
      rw [optimize_tx_overflow rt client tx signers e h hge]
    · intro hlt
      refine ⟨saturating_add_u32 e (e / 100 * 20 % U32_MOD), ?_, ?_, ?_, ?_⟩
      · rw [optimize_tx_ok rt client tx signers e h hlt]
      · rw [optimize_tx_ok rt client tx signers e h hlt]
        exact set_compute_unit_limit_arg_compile
          { tx.message with
              account_keys := tx.message.account_keys ++ [compute_budget_id] }
          (saturating_add_u32 e (e / 100 * 20 % U32_MOD))
          (saturating_add_u32_lt _ _)
      · exact le_saturating_add_u32 e _ hlt
      · exact saturating_add_u32_lt _ _
  · intro client message signers e h
    constructor
    · intro hge
      rw [optimize_msg_overflow client message signers e h hge]
    · intro hlt
      refine ⟨saturating_add_u32 e 150, ?_, ?_, ?_, ?_⟩
      · rw [optimize_msg_ok client message signers e h hlt]
      · rw [optimize_msg_ok client message signers e h hlt]
        exact set_compute_unit_limit_arg_compile
          { message with
              account_keys := message.account_keys ++ [compute_budget_id] }
          (saturating_add_u32 e 150)
          (saturating_add_u32_lt _ _)
      · exact le_saturating_add_u32 e _ hlt
      · exact saturating_add_u32_lt _ _

/-- Witness for the amended C1: a concrete out-of-range estimate (`2^32`)
fails with the truncation error, and the concrete boundary estimate
`u32::MAX - 10` succeeds with a saturated, never-smaller carried limit. -/
theorem C1_amended_witness :
    ((optimize_compute_units_unsigned_tx rtHugeEstimate clientAccountsOk txW
        (0 : Nat)).1 = .error .TryFromIntError) ∧
    (∃ L,
      (optimize_compute_units_unsigned_tx rtBigEstimate clientAccountsOk txW
          (0 : Nat)).1 = .ok 4294967285 ∧
      ((optimize_compute_units_unsigned_tx rtBigEstimate clientAccountsOk txW
          (0 : Nat)).2.message.instructions.head?.bind
        set_compute_unit_limit_arg) = some L ∧
      4294967285 ≤ L ∧ L < U32_MOD) :=
  ⟨(C1_amended_overflow_behavior.1 rtHugeEstimate clientAccountsOk txW
      (0 : Nat) 4294967296 rfl).1 (by decide),
   (C1_amended_overflow_behavior.1 rtBigEstimate clientAccountsOk txW
      (0 : Nat) 4294967285 rfl).2 (by decide)⟩

/-- C2 counterexample: a concrete message whose remote estimate is 1200; the
call returns `Ok 1200` — the bare estimate — while the inserted instruction
carries the padded limit 1350, so the returned value is not the final padded
limit and is not equal to the limit carried by the inserted instruction,
falsifying the claim as stated. -/
theorem C2_counterexample :
    ((optimize_compute_units_msg client1200 msgW signW).1 = .ok 1200) ∧
    ((optimize_compute_units_msg client1200 msgW signW).2.instructions.head?.bind
        set_compute_unit_limit_arg = some 1350) ∧
    (1200 : Nat) ≠ 1350 :=
  ⟨rfl, rfl, by decide⟩

/-- C2 amended: on an estimate that succeeds and fits in 32 bits, the
optimize operations return the truncated estimate itself, without the safety
margin; the inserted set-compute-unit-limit instruction carries the padded
limit — estimate plus 150 on the msg path, estimate plus 20 percent on the
unsigned-tx path, both saturating at `u32::MAX`. -/
theorem C2_amended_return_vs_instruction :
    (∀ (client : RpcClient) (message : Message) (signers : SignFn) (e : Nat),
      estimate_compute_units_msg client message signers = .ok e →
      e < U32_MOD →
      (optimize_compute_units_msg client message signers).1 = .ok e ∧
      ((optimize_compute_units_msg client message signers).2.instructions.head?.bind
          set_compute_unit_limit_arg) = some (saturating_add_u32 e 150)) ∧
    (∀ {σ : Type} (rt : LedgerRuntime) (client : RpcClient) (tx : Transaction)
        (signers : σ) (e : Nat),
      estimate_compute_units_unsigned_tx rt client tx signers = .ok e →
      e < U32_MOD →
      (optimize_compute_units_unsigned_tx rt client tx signers).1 = .ok e ∧
      ((optimize_compute_units_unsigned_tx rt client tx
          signers).2.message.instructions.head?.bind set_compute_unit_limit_arg) =
        some (saturating_add_u32 e (e / 100 * 20 % U32_MOD))) := by
  constructor
  · intro client message signers e h hlt
    constructor
    · rw [optimize_msg_ok client message signers e h hlt]
    · rw [optimize_msg_ok client message signers e h hlt]
      exact set_compute_unit_limit_arg_compile
        { message with
            account_keys := message.account_keys ++ [compute_budget_id] }
        (saturating_add_u32 e 150)
        (saturating_add_u32_lt _ _)
  · intro σ rt client tx signers e h hlt
    constructor
    · rw [optimize_tx_ok rt client tx signers e h hlt]
    · rw [optimize_tx_ok rt client tx signers e h hlt]
      exact set_compute_unit_limit_arg_compile
        { tx.message with
            account_keys := tx.message.account_keys ++ [compute_budget_id] }
        (saturating_add_u32 e (e / 100 * 20 % U32_MOD))
        (saturating_add_u32_lt _ _)

/-- Witness for the amended C2 at concrete inputs on both paths. -/
theorem C2_amended_witness :
    ((optimize_compute_units_msg client1200 msgW signW).1 = .ok 1200 ∧
      ((optimize_compute_units_msg client1200 msgW signW).2.instructions.head?.bind
          set_compute_unit_limit_arg) = some (saturating_add_u32 1200 150)) ∧
    ((optimize_compute_units_unsigned_tx rtOk clientAccountsOk txW (0 : Nat)).1 =
        .ok 42 ∧
      ((optimize_compute_units_unsigned_tx rtOk clientAccountsOk txW
          (0 : Nat)).2.message.instructions.head?.bind set_compute_unit_limit_arg) =
        some (saturating_add_u32 42 (42 / 100 * 20 % U32_MOD))) :=
  ⟨C2_amended_return_vs_instruction.1 client1200 msgW signW 1200 rfl (by decide),
   C2_amended_return_vs_instruction.2 rtOk clientAccountsOk txW (0 : Nat) 42 rfl
     (by decide)⟩

/-- Helper: the invariant bound is monotone in the sequence length. -/
theorem CompiledInstruction.indices_lt_mono {ix : CompiledInstruction} {n m : Nat}
    (h : ix.indices_lt n) (hnm : n ≤ m) : ix.indices_lt m :=
  ⟨lt_of_lt_of_le h.1 hnm, fun i hi => lt_of_lt_of_le (h.2 i hi) hnm⟩

/-- Helper: the first index of a key appended to a list that did not already
contain it is the original length. -/
theorem indexOf_append_self (x : Pubkey) (l : List Pubkey) (hx : x ∉ l) :
    List.indexOf x (l ++ [x]) = l.length := by
  rw [List.indexOf_append_of_not_mem hx]
  simp

/-- C3 counterexample: a concrete message that already lists the
budget-program identifier at index 0; optimization succeeds, the appended
copy sits at index 2 (the new tail), but the inserted instruction's program
account index is 0 — the first occurrence — not the newly appended entry,
falsifying the claim as stated. -/
theorem C3_counterexample :
    ((optimize_compute_units_msg client33 msgBudgetFirst signW).1 = .ok 33) ∧
    ((optimize_compute_units_msg client33 msgBudgetFirst signW).2.account_keys.length =
        3) ∧
    ((optimize_compute_units_msg client33 msgBudgetFirst signW).2.instructions.head?.map
        CompiledInstruction.program_id_index = some 0) ∧
    (0 : Nat) ≠ 3 - 1 :=
  ⟨rfl, rfl, rfl, by decide⟩

/-- C3 amended: on success the msg optimizer appends the budget-program
identifier at the end of the account keys (length grows by exactly one),
inserts the compiled limit instruction at position 0 keeping the others, and
that instruction carries no account indices and a program account index equal
to the first occurrence of the budget-program identifier in the post-append
sequence reduced mod 256 — which is the newly appended entry exactly when the
identifier was not already present and fewer than 256 keys precede it; the
index invariant is preserved by the mutation. -/
theorem C3_amended_mutation_shape (client : RpcClient) (message : Message)
    (signers : SignFn) (e : Nat)
    (h : estimate_compute_units_msg client message signers = .ok e)
    (hlt : e < U32_MOD) :
    ((optimize_compute_units_msg client message signers).2.account_keys =
        message.account_keys ++ [compute_budget_id]) ∧
    ((optimize_compute_units_msg client message signers).2.account_keys.length =
        message.account_keys.length + 1) ∧
    ((optimize_compute_units_msg client message signers).2.instructions.tail =
        message.instructions) ∧
    (∀ c,
      (optimize_compute_units_msg client message signers).2.instructions.head? =
        some c →
      c.accounts = [] ∧
      c.program_id_index =
        List.indexOf compute_budget_id
            (message.account_keys ++ [compute_budget_id]) % 256 ∧
      (compute_budget_id ∉ message.account_keys →
        message.account_keys.length < 256 →
        c.program_id_index = message.account_keys.length)) ∧
    ((∀ ix ∈ message.instructions, ix.indices_lt message.account_keys.length) →
      ∀ ix ∈ (optimize_compute_units_msg client message signers).2.instructions,
        ix.indices_lt
          (optimize_compute_units_msg client message signers).2.account_keys.length) := by
  rw [optimize_msg_ok client message signers e h hlt]
  refine ⟨rfl, by simp, rfl, ?_, ?_⟩
  · intro c hc
    have hc2 : Message.compile_instruction
        { message with account_keys := message.account_keys ++ [compute_budget_id] }
        (set_compute_unit_limit (saturating_add_u32 e 150)) = c := Option.some.inj hc
    subst hc2
    refine ⟨rfl, rfl, ?_⟩
    intro hnm hlen
    show key_position (message.account_keys ++ [compute_budget_id])
        compute_budget_id = message.account_keys.length
    unfold key_position
    rw [indexOf_append_self compute_budget_id message.account_keys hnm]
    exact Nat.mod_eq_of_lt hlen
  · intro hin ix hmem
    rcases List.mem_cons.mp hmem with rfl | hmem2
    · refine ⟨?_, ?_⟩
      · show key_position (message.account_keys ++ [compute_budget_id])
            compute_budget_id <
          (message.account_keys ++ [compute_budget_id]).length
        have hmem3 : compute_budget_id ∈
            message.account_keys ++ [compute_budget_id] := by simp
        exact lt_of_le_of_lt (Nat.mod_le _ _) (List.indexOf_lt_length.mpr hmem3)
      · intro i hi
        simp [Message.compile_instruction, set_compute_unit_limit] at hi
    · exact CompiledInstruction.indices_lt_mono (hin ix hmem2) (by simp)

/-- Witness for the amended C3 at a concrete message that does not yet
contain the budget-program identifier. -/
theorem C3_amended_witness :
    ((optimize_compute_units_msg client33 msgW signW).2.account_keys =
        msgW.account_keys ++ [compute_budget_id]) ∧
    ((optimize_compute_units_msg client33 msgW signW).2.account_keys.length =
        msgW.account_keys.length + 1) ∧
    ((optimize_compute_units_msg client33 msgW signW).2.instructions.tail =
        msgW.instructions) ∧
    (∀ c,
      (optimize_compute_units_msg client33 msgW signW).2.instructions.head? =
        some c →
      c.accounts = [] ∧
      c.program_id_index =
        List.indexOf compute_budget_id
            (msgW.account_keys ++ [compute_budget_id]) % 256 ∧
      (compute_budget_id ∉ msgW.account_keys →
        msgW.account_keys.length < 256 →
        c.program_id_index = msgW.account_keys.length)) ∧
    ((∀ ix ∈ msgW.instructions, ix.indices_lt msgW.account_keys.length) →
      ∀ ix ∈ (optimize_compute_units_msg client33 msgW signW).2.instructions,
        ix.indices_lt
          (optimize_compute_units_msg client33 msgW signW).2.account_keys.length) :=
  C3_amended_mutation_shape client33 msgW signW 33 rfl (by decide)
